import Mathlib

/-!
# Verification of the Groq Q&A Chatbot (`src/Q-and-A-Chatbot/app.py`)

A shallow embedding of the application's session state machine, settings
widgets, completion client and chat-page handlers, with theorems settling
the specification's claims.

Conventions of the embedding:
* Python floats carry no arithmetic here (values are stored and compared
  only), so `temperature` is modelled as `ℚ`; `max_tokens` as `ℤ`.
* Streamlit widgets are modelled by the value they return for one render:
  `none` means the user left the widget at its default (the current
  settings value, per the `index`/`value` arguments in the source), and
  `some v` means the user chose `v`.  The UI guarantees a selectbox index
  is in range; the model totalises this with `% MODEL_OPTIONS.length`.
* The remote provider (an external collaborator, spec section 6) is an
  input: a function from the constructed request to an outcome.  A failure
  outcome carries the raw error message string (Python's `str(e)`) plus
  the provider-side machine-distinguishable model-retired indicator that
  spec section 6 attributes to the provider; the application code observes
  only the string.
-/

namespace QAChatbot

/-- The fixed model allow-list, `app.py` lines 27–32. -/
def MODEL_OPTIONS : List String :=
  ["llama-3.1-8b-instant",
   "llama-3.3-70b-versatile",
   "groq/compound-mini",
   "groq/compound"]

/-- A transcript entry, `app.py` line 61 (`{"role": ..., "content": ...}`). -/
structure Message where
  role : String
  content : String
deriving DecidableEq, Repr

/-- The `st.session_state.settings` dict, `app.py` lines 53–58. -/
structure Settings where
  model : String
  temperature : ℚ
  max_tokens : ℤ
deriving DecidableEq, Repr

/-- Session-creation defaults, `app.py` lines 53–58. -/
def defaultSettings : Settings :=
  { model := "llama-3.1-8b-instant", temperature := 7/10, max_tokens := 512 }

/-- The per-connection session state: `st.session_state.page` (line 50),
`.settings` (line 53) and `.messages` (line 60). -/
structure SessionState where
  page : String
  settings : Settings
  messages : List Message
deriving DecidableEq, Repr

/-- The state on first access, `app.py` lines 50–61. -/
def initialState : SessionState :=
  { page := "landing", settings := defaultSettings, messages := [] }

/-- The selectbox default index computed at `app.py` lines 349–351 and
399–401: the stored model's index when it is in the allow-list, else `0`. -/
def modelIndex (s : Settings) : Nat :=
  if s.model ∈ MODEL_OPTIONS then MODEL_OPTIONS.indexOf s.model else 0

/-- The value returned by the model selectbox (`app.py` lines 346–352 and
396–402): the option at the user's chosen index, defaulting to
`modelIndex`.  The UI only produces in-range indices; `% length` totalises. -/
def selectedModel (s : Settings) (choice : Option Nat) : String :=
  MODEL_OPTIONS.getD ((choice.getD (modelIndex s)) % MODEL_OPTIONS.length) ""

/-- The temperature slider (`app.py` lines 359–361, 403–405): the user's
choice, defaulting to the stored value. -/
def selectedTemp (s : Settings) (choice : Option ℚ) : ℚ :=
  choice.getD s.temperature

/-- The max-tokens slider (`app.py` lines 362–364, 406–408): the user's
choice, defaulting to the stored value. -/
def selectedTok (s : Settings) (choice : Option ℤ) : ℤ :=
  choice.getD s.max_tokens

/-- The settings produced by the three widgets for one render; this is what
`Save Settings` / `Continue to Chat` write (`app.py` lines 375–386) and what
the chat sidebar assigns unconditionally (`app.py` lines 396–408).  The
source's `float(...)`/`int(...)` are identities on the slider values. -/
def widgetSettings (s : Settings) (mc : Option Nat) (tc : Option ℚ)
    (kc : Option ℤ) : Settings :=
  { model := selectedModel s mc,
    temperature := selectedTemp s tc,
    max_tokens := selectedTok s kc }

/-- The single outbound request assembled by `generate_response` together
with the prompt template (`app.py` lines 38–44 and 246–252). -/
structure Request where
  model : String
  temperature : ℚ
  max_tokens : ℤ
  system_message : String
  user_message : String
deriving DecidableEq, Repr

/-- The system message of the prompt template, `app.py` line 40. -/
def systemInstruction : String :=
  "You are a helpful assistant. Answer clearly, politely, and accurately."

/-- The user message of the prompt template, `app.py` line 41:
`"Question: {question}"` with the question substituted. -/
def userMessageOf (question : String) : String :=
  "Question: " ++ question

/-- The request `generate_response` constructs, `app.py` lines 38–44 and
246–252: model, temperature and max_tokens from the settings dict, plus the
two templated prompt messages. -/
def buildRequest (question : String) (cfg : Settings) : Request :=
  { model := cfg.model,
    temperature := cfg.temperature,
    max_tokens := cfg.max_tokens,
    system_message := systemInstruction,
    user_message := userMessageOf question }

/-- The provider's response to one request (spec section 6): the generated
text, or a failure carrying the raw error message string together with the
provider-side model-retired indicator.  The application code observes only
the message string. -/
inductive ChatOutcome where
  | success (text : String)
  | failure (errMsg : String) (modelRetired : Bool)
deriving DecidableEq, Repr

/-- Whether a provider outcome is a failure indicating the requested model
is no longer served (spec section 6's machine-distinguishable indicator). -/
def ChatOutcome.indicatesModelRetired : ChatOutcome → Bool
  | .success _ => false
  | .failure _ r => r

/-- `generate_response` (`app.py` lines 243–255): builds the chain's single
request and returns the parsed text; a raised provider exception propagates
to the caller as its raw message string (`chain.invoke` is not wrapped). -/
def generate_response (question : String) (cfg : Settings)
    (provider : Request → ChatOutcome) : Except String String :=
  match provider (buildRequest question cfg) with
  | .success t => .ok t
  | .failure e _ => .error e

/-- `pat` occurs in `s` starting at `s` or later (helper for Python's
substring test `pat in s`). -/
def substrAux (pat : List Char) : List Char → Bool
  | [] => pat.isEmpty
  | c :: rest => pat.isPrefixOf (c :: rest) || substrAux pat rest

/-- Python's substring test `pat in s`. -/
def containsSub (s pat : String) : Bool :=
  substrAux pat.data s.data

/-- The caller-side classification of an error message, `app.py` line 456:
`"model_decommissioned" in err or "decommissioned" in err`. -/
def isRetiredHintErr (err : String) : Bool :=
  containsSub err "model_decommissioned" || containsSub err "decommissioned"

/-- The targeted hint shown for a matched error, `app.py` line 457. -/
def retiredHintMsg : String :=
  "That model was retired by Groq. Pick a different model from the dropdown."

/-- The state and visible error message resulting from one chat submission. -/
structure SubmitResult where
  state : SessionState
  shown_error : Option String
deriving DecidableEq, Repr

/-- The chat input handler, `app.py` lines 439–459: an empty/absent input is
falsy and does nothing; otherwise the user message is appended, then the
client is invoked — on success the assistant message is appended, on failure
nothing more is appended and an error is displayed (the retired hint when the
message matches `isRetiredHintErr`, else `"Error: {e}"`). -/
def submitQuestion (s : SessionState) (question : String)
    (provider : Request → ChatOutcome) : SubmitResult :=
  if question = "" then { state := s, shown_error := none }
  else
    let s1 : SessionState :=
      { s with messages := s.messages ++ [{ role := "user", content := question }] }
    match generate_response question s1.settings provider with
    | .ok answer =>
        { state :=
            { s1 with messages :=
                s1.messages ++ [{ role := "assistant", content := answer }] },
          shown_error := none }
    | .error e =>
        if isRetiredHintErr e then
          { state := s1, shown_error := some retiredHintMsg }
        else
          { state := s1, shown_error := some ("Error: " ++ e) }

/-- What the user does on the chat page after the sidebar widgets have run:
nothing, the `Clear chat` button (`app.py` lines 410–412), the sidebar
navigation buttons (lines 415–418), or a chat submission (lines 439–459). -/
inductive ChatAct where
  | idle
  | clear
  | home
  | gotoSetup
  | submit (question : String) (provider : Request → ChatOutcome)

/-- The effect of a chat-page act on the session state. `go` (`app.py`
lines 235–237) is the assignment to `st.session_state.page`. -/
def chatAct (s : SessionState) : ChatAct → SessionState
  | .idle => s
  | .clear => { s with messages := [] }
  | .home => { s with page := "landing" }
  | .gotoSetup => { s with page := "setup" }
  | .submit q provider => (submitQuestion s q provider).state

/-- One user action, tagged by the page whose affordance it is (buttons are
only rendered on their own page): the three landing buttons (`app.py`
lines 287–296), the three setup buttons (lines 368–386) with the widget
values in scope, and a chat-page interaction, which always first runs the
sidebar widget assignments (lines 396–408). -/
inductive Action where
  | landingGetStarted
  | landingSetup
  | landingChat
  | setupBack
  | setupSave (mc : Option Nat) (tc : Option ℚ) (kc : Option ℤ)
  | setupContinue (mc : Option Nat) (tc : Option ℚ) (kc : Option ℤ)
  | chatInteract (mc : Option Nat) (tc : Option ℚ) (kc : Option ℤ) (act : ChatAct)

/-- One step of the session: an action fires only when the session is on the
action's page (otherwise its button is not rendered and the state is
unchanged).  Setup `Save`/`Continue` write `widgetSettings` (`app.py`
lines 374–386); every chat-page render first assigns `widgetSettings` from
the sidebar (lines 396–408) and then performs the act. -/
def step (s : SessionState) : Action → SessionState
  | .landingGetStarted => if s.page = "landing" then { s with page := "setup" } else s
  | .landingSetup => if s.page = "landing" then { s with page := "setup" } else s
  | .landingChat => if s.page = "landing" then { s with page := "chat" } else s
  | .setupBack => if s.page = "setup" then { s with page := "landing" } else s
  | .setupSave mc tc kc =>
      if s.page = "setup" then { s with settings := widgetSettings s.settings mc tc kc } else s
  | .setupContinue mc tc kc =>
      if s.page = "setup" then
        { s with settings := widgetSettings s.settings mc tc kc, page := "chat" }
      else s
  | .chatInteract mc tc kc act =>
      if s.page = "chat" then
        chatAct { s with settings := widgetSettings s.settings mc tc kc } act
      else s

/-- The pure navigation actions of spec section 4.1's transition table. -/
inductive NavAction where
  | getStarted
  | setupBtn
  | chatBtn
  | back
  | continueToChat
  | home
  | gotoSetup
deriving DecidableEq, Repr

/-- The page on which each navigation affordance is rendered. -/
def NavAction.src : NavAction → String
  | .getStarted => "landing"
  | .setupBtn => "landing"
  | .chatBtn => "landing"
  | .back => "setup"
  | .continueToChat => "setup"
  | .home => "chat"
  | .gotoSetup => "chat"

/-- The page each navigation action goes to. -/
def NavAction.target : NavAction → String
  | .getStarted => "setup"
  | .setupBtn => "setup"
  | .chatBtn => "chat"
  | .back => "landing"
  | .continueToChat => "chat"
  | .home => "landing"
  | .gotoSetup => "setup"

/-- Each navigation action as the full action it is in the source (with all
widgets left at their defaults). -/
def NavAction.toAction : NavAction → Action
  | .getStarted => .landingGetStarted
  | .setupBtn => .landingSetup
  | .chatBtn => .landingChat
  | .back => .setupBack
  | .continueToChat => .setupContinue none none none
  | .home => .chatInteract none none none .home
  | .gotoSetup => .chatInteract none none none .gotoSetup

/-- One navigation step: the corresponding full step of the application. -/
def navStep (s : SessionState) (n : NavAction) : SessionState :=
  step s n.toAction

/-- The targets of the navigation actions of a sequence that are valid when
reached, starting from page `p`, in order. -/
def appliedTargets (p : String) : List NavAction → List String
  | [] => []
  | n :: rest =>
      if p = n.src then n.target :: appliedTargets n.target rest
      else appliedTargets p rest

/-- The three page bodies the bottom-of-file router can dispatch to,
`app.py` lines 467–472. -/
inductive RenderedPage where
  | landing
  | setup
  | chat
deriving DecidableEq, Repr

/-- The router, `app.py` lines 467–472: `landing_page()` when the page field
is `"landing"`, `setup_page()` when it is `"setup"`, else `chat_page()`. -/
def router (page : String) : RenderedPage :=
  if page = "landing" then .landing
  else if page = "setup" then .setup
  else .chat

/-- Either the startup halt (`st.error` + `st.stop`, `app.py` lines 18–20)
or a served page. -/
inductive StartupResult where
  | configError (msg : String)
  | serve (page : RenderedPage)
deriving DecidableEq, Repr

/-- `st.secrets.get("GROQ_API_KEY", os.getenv("GROQ_API_KEY"))`, `app.py`
line 17: the secrets value when present, else the environment value. -/
def resolveApiKey (secretsVal envVal : Option String) : Option String :=
  match secretsVal with
  | some v => some v
  | none => envVal

/-- Python truthiness of the resolved key (`if not groq_api_key`, line 18):
falsy when absent or empty. -/
def keyTruthy : Option String → Bool
  | none => false
  | some v => v ≠ ""

/-- The operator-facing diagnostic, `app.py` line 19. -/
def configErrMsg : String :=
  "GROQ_API_KEY not found. Add it in Streamlit Cloud → Settings → Secrets."

/-- One top-to-bottom run of the script for a session whose page field is
`pageState` (`app.py` lines 17–20 and 467–472): a falsy key halts with the
diagnostic before any page is rendered; otherwise the router serves. -/
def runApp (secretsVal envVal : Option String) (pageState : String) :
    StartupResult :=
  if keyTruthy (resolveApiKey secretsVal envVal) then .serve (router pageState)
  else .configError configErrMsg

/-! Concrete inputs used by witnesses and counterexamples. -/

/-- A session sitting on the chat page with an empty transcript. -/
def chatState0 : SessionState :=
  { page := "chat", settings := defaultSettings, messages := [] }

/-- A session on the chat page whose transcript already has odd length
(one user message left by an earlier failed exchange). -/
def oddChatState : SessionState :=
  { page := "chat", settings := defaultSettings,
    messages := [{ role := "user", content := "q1" }] }

/-- A settings dict holding a model the provider has since retired
(`gemma2-9b-it`, removed from the allow-list per `app.py` line 26). -/
def staleSettings : Settings :=
  { model := "gemma2-9b-it", temperature := 7/10, max_tokens := 512 }

/-- A provider stub that always answers with a fixed string. -/
def fixedProvider : Request → ChatOutcome :=
  fun _ => .success "fixed answer"

/-- A provider stub that always fails with a model-decommissioned message
(the matched substring case). -/
def decommissionedProvider : Request → ChatOutcome :=
  fun _ => .failure "Error code: 400 - model_decommissioned" true

/-- A provider failure that indicates the model is no longer served but
whose message does not contain either matched substring. -/
def retiredNoSubstrOutcome : ChatOutcome :=
  .failure "The model llama-2-70b has been retired and is no longer served" true

/-- A provider stub returning `retiredNoSubstrOutcome`. -/
def retiredNoSubstrProvider : Request → ChatOutcome :=
  fun _ => retiredNoSubstrOutcome

/-- A session sitting on the setup page with the default settings. -/
def setupState : SessionState :=
  { page := "setup", settings := defaultSettings, messages := [] }

/-- A provider stub that agrees with `fixedProvider` on the one request the
client builds for the question `"hi"` and fails on every other request. -/
def branchingProvider : Request → ChatOutcome :=
  fun r =>
    if r.user_message = "Question: hi" then .success "fixed answer"
    else .failure "unreachable" false

/-! ## Helper lemmas -/

/-- The model selectbox always returns a member of the allow-list. -/
theorem selectedModel_mem (s : Settings) (c : Option Nat) :
    selectedModel s c ∈ MODEL_OPTIONS := by
  unfold selectedModel
  have h : (c.getD (modelIndex s)) % MODEL_OPTIONS.length < 4 :=
    Nat.mod_lt _ (by decide)
  revert h
  generalize (c.getD (modelIndex s)) % MODEL_OPTIONS.length = i
  intro h
  have h4 : i = 0 ∨ i = 1 ∨ i = 2 ∨ i = 3 := by omega
  rcases h4 with rfl | rfl | rfl | rfl <;> decide

/-- With the widget untouched, an out-of-list stored model resolves to the
allow-list's first entry. -/
theorem selectedModel_fallback (s : Settings) (h : s.model ∉ MODEL_OPTIONS) :
    selectedModel s none = "llama-3.1-8b-instant" := by
  have h0 : modelIndex s = 0 := by unfold modelIndex; rw [if_neg h]
  unfold selectedModel
  rw [h0]
  decide

/-- Choosing a listed model by its index returns exactly that model. -/
theorem selectedModel_indexOf (m : String) (hm : m ∈ MODEL_OPTIONS)
    (s : Settings) : selectedModel s (some (MODEL_OPTIONS.indexOf m)) = m := by
  fin_cases hm <;> rfl

/-- A chat submission never touches the settings dict. -/
theorem submitQuestion_settings (s : SessionState) (q : String)
    (p : Request → ChatOutcome) :
    (submitQuestion s q p).state.settings = s.settings := by
  unfold submitQuestion
  split
  · rfl
  · dsimp only
    rcases generate_response q s.settings p with e | t
    · dsimp only
      split <;> rfl
    · rfl

/-- No chat-page act changes the settings dict. -/
theorem chatAct_settings (s : SessionState) (a : ChatAct) :
    (chatAct s a).settings = s.settings := by
  cases a <;> simp [chatAct, submitQuestion_settings]

/-- Every step keeps the stored model inside the allow-list. -/
theorem step_model_mem (s : SessionState) (a : Action)
    (h : s.settings.model ∈ MODEL_OPTIONS) :
    (step s a).settings.model ∈ MODEL_OPTIONS := by
  cases a with
  | landingGetStarted => simp only [step]; split <;> simpa using h
  | landingSetup => simp only [step]; split <;> simpa using h
  | landingChat => simp only [step]; split <;> simpa using h
  | setupBack => simp only [step]; split <;> simpa using h
  | setupSave mc tc kc =>
      simp only [step]; split
      · simpa [widgetSettings] using selectedModel_mem s.settings mc
      · exact h
  | setupContinue mc tc kc =>
      simp only [step]; split
      · simpa [widgetSettings] using selectedModel_mem s.settings mc
      · exact h
  | chatInteract mc tc kc act =>
      simp only [step]; split
      · rw [chatAct_settings]
        simpa [widgetSettings] using selectedModel_mem s.settings mc
      · exact h

/-- The allow-list membership of the model is preserved along any run. -/
theorem foldl_step_model_mem (acts : List Action) :
    ∀ s : SessionState, s.settings.model ∈ MODEL_OPTIONS →
      (acts.foldl step s).settings.model ∈ MODEL_OPTIONS := by
  induction acts with
  | nil => intro s h; simpa using h
  | cons a rest ih => intro s h; exact ih _ (step_model_mem s a h)

/-- A navigation action moves to its target when the session is on its source
page; its page and transcript are otherwise untouched. -/
theorem navStep_page_messages (s : SessionState) (n : NavAction) :
    (navStep s n).page = (if s.page = n.src then n.target else s.page) ∧
    (navStep s n).messages = s.messages := by
  cases n <;>
    simp only [navStep, NavAction.toAction, NavAction.src, NavAction.target, step] <;>
    split <;> simp_all [chatAct]

/-- A navigation action whose affordance is not on the current page leaves
the state unchanged (its button is not rendered). -/
theorem navStep_invalid (s : SessionState) (n : NavAction)
    (h : ¬ s.page = n.src) : navStep s n = s := by
  cases n <;>
    simp only [navStep, NavAction.toAction, NavAction.src, step] <;>
    simp_all [NavAction.src]

/-- C1: after any sequence of operations from the initial session state,
`settings.model` is a member of the fixed allow-list `MODEL_OPTIONS`; and when
a stored value falls outside the list, the reads resolve it to the allow-list's
first entry `"llama-3.1-8b-instant"`: the untouched model selectbox returns the
first entry, and a chat-page render writes the first entry back into the
settings before any submission uses it. -/
theorem model_allowlist_invariant :
    (∀ acts : List Action,
        (acts.foldl step initialState).settings.model ∈ MODEL_OPTIONS) ∧
    (∀ s : Settings, s.model ∉ MODEL_OPTIONS →
        selectedModel s none = "llama-3.1-8b-instant") ∧
    (∀ s : SessionState, s.page = "chat" → s.settings.model ∉ MODEL_OPTIONS →
        (step s (.chatInteract none none none .idle)).settings.model =
          "llama-3.1-8b-instant") := by
  refine ⟨fun acts => foldl_step_model_mem acts initialState (by decide),
          fun s h => selectedModel_fallback s h,
          fun s hp h => ?_⟩
  simp only [step]
  rw [if_pos hp]
  simp only [chatAct]
  simpa [widgetSettings] using selectedModel_fallback s.settings h

/-- Witness for C1 at the retired model identifier `gemma2-9b-it`. -/
theorem model_allowlist_invariant_witness :
    selectedModel staleSettings none = "llama-3.1-8b-instant" :=
  model_allowlist_invariant.2.1 staleSettings (by decide)

/-- C5: the navigation machine is a deterministic total function over the
transition table; after any sequence of navigation actions, the page equals
the target of the last transition that was valid when reached (the starting
page when none was), and no navigation changes the transcript. -/
theorem nav_deterministic_last_target :
    ∀ (acts : List NavAction) (s : SessionState),
      (acts.foldl navStep s).page = (appliedTargets s.page acts).getLastD s.page ∧
      (acts.foldl navStep s).messages = s.messages := by
  intro acts
  induction acts with
  | nil => intro s; simp [appliedTargets]
  | cons n rest ih =>
    intro s
    rcases navStep_page_messages s n with ⟨hp, hm⟩
    by_cases h : s.page = n.src
    · have h1 : (navStep s n).page = n.target := by rw [hp, if_pos h]
      have h2 := ih (navStep s n)
      constructor
      · rw [List.foldl_cons, h2.1, h1]
        simp only [appliedTargets]
        rw [if_pos h, List.getLastD_cons]
      · rw [List.foldl_cons, h2.2, hm]
    · have h1 : navStep s n = s := navStep_invalid s n h
      have h2 := ih s
      constructor
      · rw [List.foldl_cons, h1, h2.1]
        simp only [appliedTargets]
        rw [if_neg h]
      · rw [List.foldl_cons, h1, h2.2]

/-- C6: the `Clear chat` action, an affordance of the chat page only, always
resets the transcript to the empty sequence and never changes the page; from
any other page the action does not exist and the state is unchanged. -/
theorem clear_chat_spec (s : SessionState) (mc : Option Nat) (tc : Option ℚ)
    (kc : Option ℤ) :
    (s.page = "chat" →
      (step s (.chatInteract mc tc kc .clear)).messages = [] ∧
      (step s (.chatInteract mc tc kc .clear)).page = s.page) ∧
    (¬ s.page = "chat" → step s (.chatInteract mc tc kc .clear) = s) := by
  constructor
  · intro h
    simp only [step]
    rw [if_pos h]
    simp [chatAct]
  · intro h
    simp only [step]
    rw [if_neg h]

/-- Witness for C6 on a chat session with a non-empty transcript. -/
theorem clear_chat_spec_witness :
    (step oddChatState (.chatInteract none none none .clear)).messages = [] ∧
    (step oddChatState (.chatInteract none none none .clear)).page =
      oddChatState.page :=
  (clear_chat_spec oddChatState none none none).1 rfl

/-- C10: the router is total over arbitrary page values and renders exactly
one page: the landing page for `"landing"`, the setup page for `"setup"`, and
the chat page for every other value. -/
theorem router_total (p : String) :
    (p = "landing" → router p = .landing) ∧
    (p = "setup" → router p = .setup) ∧
    (¬ p = "landing" → ¬ p = "setup" → router p = .chat) := by
  refine ⟨fun h => ?_, fun h => ?_, fun h1 h2 => ?_⟩
  · subst h; rfl
  · subst h; rfl
  · unfold router
    rw [if_neg h1, if_neg h2]

/-- Witness for C10 at a page value outside the three-state enum. -/
theorem router_total_witness : router "bogus" = .chat :=
  (router_total "bogus").2.2 (by decide) (by decide)

/-- C8: when the resolved API credential is absent (falsy), the run halts
with the operator-facing diagnostic before any page is rendered; no page is
ever served without a credential. -/
theorem missing_key_halts (secretsVal envVal : Option String) (p : String)
    (h : keyTruthy (resolveApiKey secretsVal envVal) = false) :
    runApp secretsVal envVal p = .configError configErrMsg ∧
    ∀ rp : RenderedPage, ¬ runApp secretsVal envVal p = .serve rp := by
  have h1 : runApp secretsVal envVal p = .configError configErrMsg := by
    unfold runApp
    rw [h]
    simp
  exact ⟨h1, fun rp hrp => by rw [h1] at hrp; exact StartupResult.noConfusion hrp⟩

/-- Witness for C8 with the key absent from both secrets and environment. -/
theorem missing_key_halts_witness :
    runApp none none "landing" = .configError configErrMsg :=
  (missing_key_halts none none "landing" rfl).1

/-- C4: when the client returns answer text, a chat submission appends
exactly the user message followed by the assistant message, in that order,
and changes nothing else: page and settings are untouched and no error is
shown. -/
theorem submit_success_appends (s : SessionState) (q ans : String)
    (provider : Request → ChatOutcome) (hq : ¬ q = "")
    (hp : provider (buildRequest q s.settings) = .success ans) :
    (submitQuestion s q provider).state.messages =
      s.messages ++ [{ role := "user", content := q },
                     { role := "assistant", content := ans }] ∧
    (submitQuestion s q provider).state.page = s.page ∧
    (submitQuestion s q provider).state.settings = s.settings ∧
    (submitQuestion s q provider).shown_error = none := by
  have hg : generate_response q s.settings provider = .ok ans := by
    unfold generate_response
    rw [hp]
  unfold submitQuestion
  rw [if_neg hq]
  dsimp only
  rw [hg]
  simp

/-- Witness for C4 with a stubbed always-succeeding client. -/
theorem submit_success_appends_witness :
    (submitQuestion chatState0 "hi" fixedProvider).state.messages =
      chatState0.messages ++ [{ role := "user", content := "hi" },
                              { role := "assistant", content := "fixed answer" }] ∧
    (submitQuestion chatState0 "hi" fixedProvider).state.page = chatState0.page ∧
    (submitQuestion chatState0 "hi" fixedProvider).state.settings =
      chatState0.settings ∧
    (submitQuestion chatState0 "hi" fixedProvider).shown_error = none :=
  submit_success_appends chatState0 "hi" "fixed answer" fixedProvider
    (by decide) rfl

/-- C3 counterexample: from a chat transcript that already has odd length
(one user message left by an earlier failed exchange), a failing submission
appends the user message as claimed, but the resulting transcript length is
`2`, which is even — refuting the claim's "resulting transcript length is
odd" for arbitrary prior transcripts. -/
theorem submit_failure_odd_counterexample :
    (submitQuestion oddChatState "q2" decommissionedProvider).state.messages =
      [{ role := "user", content := "q1" }, { role := "user", content := "q2" }] ∧
    ¬ Odd (submitQuestion oddChatState "q2"
        decommissionedProvider).state.messages.length := by
  constructor
  · rfl
  · rw [show (submitQuestion oddChatState "q2"
        decommissionedProvider).state.messages.length = 2 from rfl]
    decide

/-- C3 (amended): when the client fails, a chat submission appends exactly
the user message, no assistant message, and shows a visible error; the
transcript grows by one, so its length is odd whenever the prior length was
even — in particular in the stubbed test starting from an empty transcript. -/
theorem submit_failure_appends_user_only (s : SessionState) (q e : String)
    (b : Bool) (provider : Request → ChatOutcome) (hq : ¬ q = "")
    (hp : provider (buildRequest q s.settings) = .failure e b) :
    (submitQuestion s q provider).state.messages =
      s.messages ++ [{ role := "user", content := q }] ∧
    (submitQuestion s q provider).shown_error.isSome = true ∧
    (submitQuestion s q provider).state.messages.length =
      s.messages.length + 1 ∧
    (Even s.messages.length →
      Odd (submitQuestion s q provider).state.messages.length) := by
  have hg : generate_response q s.settings provider = .error e := by
    unfold generate_response
    rw [hp]
  have hmain : (submitQuestion s q provider).state.messages =
      s.messages ++ [{ role := "user", content := q }] ∧
      (submitQuestion s q provider).shown_error.isSome = true := by
    unfold submitQuestion
    rw [if_neg hq]
    dsimp only
    rw [hg]
    dsimp only
    split <;> simp
  have hlen : (submitQuestion s q provider).state.messages.length =
      s.messages.length + 1 := by
    rw [hmain.1]
    simp
  exact ⟨hmain.1, hmain.2, hlen, fun he => by rw [hlen]; exact he.add_one⟩

/-- Witness for the amended C3: the stubbed model-retired test from an empty
transcript. -/
theorem submit_failure_appends_user_only_witness :
    (submitQuestion chatState0 "hi" decommissionedProvider).state.messages =
      chatState0.messages ++ [{ role := "user", content := "hi" }] ∧
    (submitQuestion chatState0 "hi" decommissionedProvider).shown_error.isSome =
      true ∧
    (submitQuestion chatState0 "hi" decommissionedProvider).state.messages.length =
      chatState0.messages.length + 1 ∧
    (Even chatState0.messages.length →
      Odd (submitQuestion chatState0 "hi"
        decommissionedProvider).state.messages.length) :=
  submit_failure_appends_user_only chatState0 "hi"
    "Error code: 400 - model_decommissioned" true decommissionedProvider
    (by decide) rfl

/-- C2 counterexample: the client has no structured error type.  A provider
failure whose machine-level indicator says the model is no longer served, but
whose message lacks the substrings `"model_decommissioned"`/`"decommissioned"`,
is propagated by `generate_response` as its raw message string, and the caller
shows the generic `"Error: ..."` text instead of the model-retired hint —
refuting the claim that a model-retirement failure is surfaced as a
distinguishable structured tag. -/
theorem model_retired_tag_counterexample :
    retiredNoSubstrOutcome.indicatesModelRetired = true ∧
    generate_response "hi" defaultSettings retiredNoSubstrProvider =
      .error "The model llama-2-70b has been retired and is no longer served" ∧
    (submitQuestion chatState0 "hi" retiredNoSubstrProvider).shown_error =
      some "Error: The model llama-2-70b has been retired and is no longer served" ∧
    ¬ (submitQuestion chatState0 "hi" retiredNoSubstrProvider).shown_error =
      some retiredHintMsg := by
  refine ⟨rfl, rfl, ?_, ?_⟩ <;> decide

/-- C2 (amended): `generate_response` returns the generated text on success
and propagates a provider failure as its raw message string, with no
structured error type; the model-retired case is distinguished by the caller,
which substring-matches the message against `"model_decommissioned"` and
`"decommissioned"`, showing the fixed hint on a match and `"Error: {e}"`
otherwise. -/
theorem chat_error_classification (s : SessionState) (q e : String) (b : Bool)
    (provider : Request → ChatOutcome) (hq : ¬ q = "")
    (hp : provider (buildRequest q s.settings) = .failure e b) :
    generate_response q s.settings provider = .error e ∧
    (submitQuestion s q provider).shown_error =
      some (if isRetiredHintErr e then retiredHintMsg else "Error: " ++ e) := by
  have hg : generate_response q s.settings provider = .error e := by
    unfold generate_response
    rw [hp]
  refine ⟨hg, ?_⟩
  unfold submitQuestion
  rw [if_neg hq]
  dsimp only
  rw [hg]
  dsimp only
  split <;> simp_all

/-- Witness for the amended C2 at a matched decommissioned message. -/
theorem chat_error_classification_witness :
    generate_response "hi" chatState0.settings decommissionedProvider =
      .error "Error code: 400 - model_decommissioned" ∧
    (submitQuestion chatState0 "hi" decommissionedProvider).shown_error =
      some (if isRetiredHintErr "Error code: 400 - model_decommissioned"
            then retiredHintMsg
            else "Error: " ++ "Error code: 400 - model_decommissioned") :=
  chat_error_classification chatState0 "hi"
    "Error code: 400 - model_decommissioned" true decommissionedProvider
    (by decide) rfl

/-- C7 counterexample: the request built for the question `"hi"` does not
carry the question itself as the user message (it carries
`"Question: hi"`), and its system instruction is not the claim's quoted
string — refuting the claim's message texts. -/
theorem request_text_counterexample :
    ¬ (buildRequest "hi" defaultSettings).user_message = "hi" ∧
    ¬ (buildRequest "hi" defaultSettings).system_message =
      "be a helpful, clear, polite, accurate assistant" := by
  refine ⟨?_, ?_⟩ <;> decide

/-- C7 (amended): `generate_response` consults the provider on exactly one
request, whose model, temperature and output bound come unchanged from the
settings, whose system message is the fixed instruction `"You are a helpful
assistant. Answer clearly, politely, and accurately."`, and whose user
message is `"Question: "` followed by the question. -/
theorem generate_response_single_request (q : String) (cfg : Settings)
    (p1 p2 : Request → ChatOutcome)
    (h : p1 (buildRequest q cfg) = p2 (buildRequest q cfg)) :
    generate_response q cfg p1 = generate_response q cfg p2 ∧
    (buildRequest q cfg).model = cfg.model ∧
    (buildRequest q cfg).temperature = cfg.temperature ∧
    (buildRequest q cfg).max_tokens = cfg.max_tokens ∧
    (buildRequest q cfg).system_message = systemInstruction ∧
    (buildRequest q cfg).user_message = "Question: " ++ q := by
  refine ⟨?_, rfl, rfl, rfl, rfl, rfl⟩
  unfold generate_response
  rw [h]

/-- Witness for the amended C7: two stubs that agree on the one built request
(and nowhere else) yield identical client behaviour. -/
theorem generate_response_single_request_witness :
    generate_response "hi" defaultSettings fixedProvider =
      generate_response "hi" defaultSettings branchingProvider ∧
    (buildRequest "hi" defaultSettings).model = defaultSettings.model ∧
    (buildRequest "hi" defaultSettings).temperature =
      defaultSettings.temperature ∧
    (buildRequest "hi" defaultSettings).max_tokens =
      defaultSettings.max_tokens ∧
    (buildRequest "hi" defaultSettings).system_message = systemInstruction ∧
    (buildRequest "hi" defaultSettings).user_message = "Question: " ++ "hi" :=
  generate_response_single_request "hi" defaultSettings fixedProvider
    branchingProvider (by decide)

/-- C9: saving settings on the setup page with a listed model chosen by its
index and in-bounds slider values stores exactly those values — no rounding,
clamping or substitution. -/
theorem save_settings_exact (s : SessionState) (m : String) (t : ℚ) (k : ℤ)
    (hpage : s.page = "setup") (hm : m ∈ MODEL_OPTIONS)
    (ht0 : 0 ≤ t) (ht1 : t ≤ 1) (hk0 : 64 ≤ k) (hk1 : k ≤ 2048) :
    (step s (.setupSave (some (MODEL_OPTIONS.indexOf m)) (some t)
        (some k))).settings =
      { model := m, temperature := t, max_tokens := k } := by
  simp only [step]
  rw [if_pos hpage]
  simp [widgetSettings, selectedTemp, selectedTok,
        selectedModel_indexOf m hm s.settings]

/-- Witness for C9 at a listed model and in-bounds slider values. -/
theorem save_settings_exact_witness :
    (step setupState (.setupSave (some (MODEL_OPTIONS.indexOf "groq/compound"))
        (some (1/2)) (some 1024))).settings =
      { model := "groq/compound", temperature := 1/2, max_tokens := 1024 } :=
  save_settings_exact setupState "groq/compound" (1/2) 1024 rfl (by decide)
    (by norm_num) (by norm_num) (by decide) (by decide)

end QAChatbot
